import Mathlib

/-!
Verification of the Nexus Guard browser-extension coordination layer.

The definitions below are a shallow embedding of the JavaScript sources
`background.js`, `content.js` and `popup.js` of the `chrome-extension`
directory.  Pure computations (keyword scans, URL checks, urgency counting)
are translated directly; the effectful pipelines (screenshot capture and
analysis, content scans, batch file scans) are translated as functions over
an explicit environment record that fixes the outcome of each host/network
primitive (capture, download, HTTP call, page-text extraction), with thrown
JavaScript exceptions rendered as `Except.error`.  Notification and
storage side effects, which do not influence returned values or raising
behaviour, are noted in comments where they occur in the source.
-/

namespace NexusGuard

/-- JavaScript `s.toLowerCase()`, character-wise (all vocabulary entries
and URL patterns are ASCII).  Implemented over the character list so that
it evaluates inside the kernel. -/
def jsToLower (s : String) : String :=
  ⟨s.data.map Char.toLower⟩

/-- JavaScript `s.substring(0, n)` (by code point).  Implemented over the
character list so that it evaluates inside the kernel. -/
def strTake (s : String) (n : Nat) : String :=
  ⟨s.data.take n⟩

/-- JavaScript `s.trim()`: strip leading and trailing whitespace. -/
def jsTrim (s : String) : String :=
  ⟨((s.data.dropWhile Char.isWhitespace).reverse.dropWhile
      Char.isWhitespace).reverse⟩

/-- JavaScript `s.startsWith(pre)`. -/
def strStartsWith (s pre : String) : Bool :=
  pre.data.isPrefixOf s.data

/-- JavaScript `s.split('.')` over the character list. -/
def splitOnDot : List Char → List (List Char)
  | [] => [[]]
  | c :: rest =>
    let r := splitOnDot rest
    if c = '.' then [] :: r
    else
      match r with
      | [] => [[c]]
      | h :: t => (c :: h) :: t

/-- Does `needle` occur as a contiguous run in the character list?  A
structural-recursion substring test (tries every suffix). -/
def listContains (needle : List Char) : List Char → Bool
  | [] => needle.isEmpty
  | c :: rest => needle.isPrefixOf (c :: rest) || listContains needle rest

/-- JavaScript `hay.includes(needle)`: case-sensitive substring test. -/
def jsIncludes (hay needle : String) : Bool :=
  listContains needle.data hay.data

/-- Number of (possibly overlapping) occurrences of `needle` in `hay`,
counted at every character position.  Used only to state claims about
"occurrences of vocabulary entries" in a text. -/
def countOcc (needle : List Char) : List Char → Nat
  | [] => 0
  | c :: rest =>
    (if needle.isPrefixOf (c :: rest) then 1 else 0) + countOcc needle rest

/-- Total number of occurrences of any entry of `vocab` in `text`
(case-insensitive, as the detectors lower-case before matching). -/
def totalOccurrences (vocab : List String) (text : String) : Nat :=
  (vocab.map fun k => countOcc (jsToLower k).data (jsToLower text).data).sum

/-- At the head of `s`, the first alternative of `alts` that matches,
returning its length.  Models a JavaScript regex alternation of literal
words attempting the alternatives left to right at one position. -/
def firstAltAt (alts : List (List Char)) (s : List Char) : Option Nat :=
  alts.findSome? fun a => if a.isPrefixOf s then some a.length else none

/-- Fuelled scanner behind `countMatches`: each step consumes at least one
character, so fuel equal to the text length is always enough; the fuel
only makes the recursion structural. -/
def countMatchesAux (alts : List (List Char)) : Nat → List Char → Nat
  | 0, _ => 0
  | _, [] => 0
  | fuel + 1, c :: rest =>
    match firstAltAt alts (c :: rest) with
    | some n => 1 + countMatchesAux alts fuel (rest.drop (n - 1))
    | none => countMatchesAux alts fuel rest

/-- Number of matches of the alternation `alts` in `s`, scanning left to
right and resuming after each match: the match count produced by a global
(`g` flag) JavaScript regex whose body is an alternation of literal words,
as in `content.js`'s `urgencyPatterns` (the alternatives of each family do
not overlap, so alternative order is immaterial). -/
def countMatches (alts : List (List Char)) (s : List Char) : Nat :=
  countMatchesAux alts s.length s

/-- List of suffixes obtained by consuming the first occurrence of
`needle`; `none` when `needle` does not occur.  Helper for `urlHostname`
and the `.*` regex tests of `content.js`. -/
def seekAfter (needle : List Char) : List Char → Option (List Char)
  | [] => if needle.isEmpty then some [] else none
  | c :: rest =>
    if needle.isPrefixOf (c :: rest) then some ((c :: rest).drop needle.length)
    else seekAfter needle rest

/-- A character matched by `.` in a JavaScript regex without the `s` flag:
anything but a line terminator. -/
def isDotChar (c : Char) : Bool :=
  c ≠ '\n' && c ≠ '\r' && c.val ≠ 0x2028 && c.val ≠ 0x2029

/-- Does `s` start with a (possibly empty) run of `.`-matchable characters
followed by the literal `b`?  Inner step of the `/a.*b/` test. -/
def dotStarThen (b : List Char) : List Char → Bool
  | [] => b.isEmpty
  | c :: rest => b.isPrefixOf (c :: rest) || (isDotChar c && dotStarThen b rest)

/-- JavaScript `/a.*b/.test s`: some occurrence of the literal `a` is
followed, with only `.`-matchable characters between, by the literal `b`. -/
def testDotStar (a b : List Char) : List Char → Bool
  | [] => false
  | c :: rest =>
    (a.isPrefixOf (c :: rest) && dotStarThen b ((c :: rest).drop a.length)) ||
      testDotStar a b rest

/-- `new URL(url).hostname` for an absolute URL of the usual
`scheme://host[:port]/...` shape: the text after `"://"` up to the first
`'/'`, `':'`, `'?'` or `'#'`, lower-cased (URL parsing canonicalises the
host to lower case). -/
def urlHostname (url : String) : String :=
  match seekAfter "://".data url.data with
  | some rest =>
    ⟨(rest.takeWhile fun c =>
      c ≠ '/' && c ≠ ':' && c ≠ '?' && c ≠ '#').map Char.toLower⟩
  | none => ""

/-- The URL-shortener literals of the `suspiciousPatterns` regex lists that
appear identically in `background.js` (`isSuspiciousURL`, `analyzeLinks`)
and `content.js` (`isSuspiciousURL`); every pattern is a case-insensitive
literal test, rendered here lower-cased. -/
def shortenerPatterns : List String :=
  ["bit.ly", "tinyurl.com", "goo.gl", "t.co", "is.gd", "cli.gs", "ow.ly",
   "su.pr", "twurl.nl", "snipurl.com", "short.to", "budurl.com", "ping.fm",
   "tr.im", "bkite.com", "snipr.com", "shortie.io", "short.io", "rb.gy",
   "tiny.cc"]

/-- `isSuspiciousURL(url)` as defined (identically) in `background.js` and
`content.js`: a case-insensitive match of any shortener pattern, or a
case-sensitive `includes` of one of four explicit substrings. -/
def isSuspiciousURL (url : String) : Bool :=
  (shortenerPatterns.any fun p => jsIncludes (jsToLower url) p) ||
    jsIncludes url "suspicious" || jsIncludes url "phishing" ||
    jsIncludes url "scam" || jsIncludes url "malware"

/-- Outcome of one HTTP call issued through `fetch`: a success response
with parsed JSON body `α`, a response with non-success status
(`response.ok` false), or a network-level rejection (no response at all;
a body that fails to parse on a success status lands here too, as the
source wraps parsing in the same `try`). -/
inductive HttpOutcome (α : Type) where
  | ok (body : α)
  | httpErr (status : Nat) (statusText : String)
  | netErr (msg : String)
deriving DecidableEq, Repr

/-- The remote analysis attempt did not produce a usable success body. -/
def HttpOutcome.failed : HttpOutcome α → Bool
  | .ok _ => false
  | .httpErr _ _ => true
  | .netErr _ => true

namespace Background

/-- `suspiciousKeywords` of `quickKeywordScan` in `background.js`. -/
def suspiciousKeywords : List String :=
  ["urgent", "immediate action", "account suspended", "verify now",
   "click here", "limited time", "free money", "lottery winner",
   "bank account", "credit card", "social security", "password",
   "login", "sign in", "update now", "security alert",
   "bitcoin", "crypto", "investment opportunity", "act now",
   "don\x27t wait", "hurry", "expires", "deadline"]

/-- `quickKeywordScan(text)` of `background.js`: for each vocabulary entry
in list order, push the entry onto `foundThreats` when the lower-cased
text contains the lower-cased entry. -/
def quickKeywordScan (text : String) : List String :=
  suspiciousKeywords.foldl
    (fun foundThreats keyword =>
      if jsIncludes (jsToLower text) (jsToLower keyword) then
        foundThreats ++ [keyword]
      else foundThreats)
    []

/-- Response body of `POST /predict-image` as consumed by
`takeScreenshotAndAnalyze`.  The spoof fields are optional: they appear
only when the remote classifier emitted them. -/
structure ApiImageResult where
  prediction : Int
  probability : ℚ
  is_spoofed : Option String
  spoof_confidence : Option ℚ
deriving DecidableEq, Repr

/-- Outcome of `chrome.tabs.captureVisibleTab`: the data URL of the image,
or a rejection.  A resolved-but-falsy value, which the source turns into
`throw new Error('Failed to capture screenshot')`, is an `err` too. -/
inductive CaptureOutcome where
  | ok (dataUrl : String)
  | err (msg : String)
deriving DecidableEq, Repr

/-- Outcome of `chrome.downloads.download`: a download id, or a rejection. -/
inductive DownloadOutcome where
  | ok (downloadId : Nat)
  | err (msg : String)
deriving DecidableEq, Repr

/-- Outcome of the `chrome.scripting.executeScript` text extraction in
`performBasicScreenshotAnalysis`: the injected function's `{text, title,
url}` (its `text` already truncated to 2000 characters by the injected
code), a resolved call whose `results[0].result` is missing (the source's
`if (results && results[0] && results[0].result)` guard falls through), or
a rejection. -/
inductive ExtractOutcome where
  | ok (text title url : String)
  | noResult
  | err (msg : String)
deriving DecidableEq, Repr

/-- Fixed outcomes of the host/network primitives used by one run of the
screenshot pipeline. -/
structure ScreenshotEnv where
  capture : CaptureOutcome
  download : DownloadOutcome
  api : HttpOutcome ApiImageResult
  extract : ExtractOutcome

/-- The `basicAnalysis` record stored in the heuristic results of
`performBasicScreenshotAnalysis`. -/
structure BasicAnalysis where
  threats : List String
  text : String
  title : String
  url : String
deriving DecidableEq, Repr

/-- The object returned by `takeScreenshotAndAnalyze` /
`performBasicScreenshotAnalysis` ("ScanResult" of the specification).
`apiResult` is present exactly on the remote path, `basicAnalysis` exactly
on the heuristic paths that built one, `error` exactly on the
extraction-failure path. -/
structure ScanResult where
  threats : List String
  confidence : ℚ
  apiResult : Option ApiImageResult
  basicAnalysis : Option BasicAnalysis
  error : Option String
  screenshotSaved : Bool
deriving DecidableEq, Repr

/-- The specification's `source` discriminator of a `ScanResult`. -/
inductive ScanSource where
  | Remote
  | Heuristic
deriving DecidableEq, Repr

/-- A result is `Remote`-sourced when it carries the remote classifier's
body, `Heuristic`-sourced otherwise. -/
def ScanResult.source (r : ScanResult) : ScanSource :=
  if r.apiResult.isSome then .Remote else .Heuristic

/-- The spoof information a result exposes: the spoof fields of its
remote body, when present. -/
def ScanResult.spoofInfo (r : ScanResult) : Option String :=
  r.apiResult.bind fun a => a.is_spoofed

/-- `performBasicScreenshotAnalysis(screenshot, tab)` of `background.js`.
Extract `{text, title, url}` from the page; on success run
`quickKeywordScan(text + ' ' + title)` and return a result with confidence
0.8 when threats were found, 0.2 otherwise; when the extraction resolves
without a result, return the default 0.1-confidence result; when it
throws, the `catch` returns the zero-confidence result carrying the error
message.  Notifications and the `chrome.storage.local.set` are side
effects that do not alter the returned value; the function never throws. -/
def performBasicScreenshotAnalysis (env : ScreenshotEnv) : ScanResult :=
  match env.extract with
  | .ok text title url =>
    let threats := quickKeywordScan (text ++ " " ++ title)
    { threats := threats
      confidence := if threats.length > 0 then (0.8 : ℚ) else (0.2 : ℚ)
      apiResult := none
      basicAnalysis := some
        { threats := threats, text := strTake text 500, title := title,
          url := url }
      error := none
      screenshotSaved := true }
  | .noResult =>
    { threats := []
      confidence := (0.1 : ℚ)
      apiResult := none
      basicAnalysis := some { threats := [], text := "", title := "", url := "" }
      error := none
      screenshotSaved := true }
  | .err msg =>
    { threats := []
      confidence := (0.0 : ℚ)
      apiResult := none
      basicAnalysis := none
      error := some msg
      screenshotSaved := true }

/-- `takeScreenshotAndAnalyze(tab)` of `background.js`.  Steps, in source
order inside one outer `try`: capture the visible tab (failure throws);
`await chrome.downloads.download(...)` — not guarded by any inner `try`,
so a rejection propagates to the outer `catch`, which shows a notification
and re-throws; then, inside an inner `try`, POST the image to
`/predict-image` — a success response yields the remote result, while a
non-success status or a thrown fetch falls back to
`performBasicScreenshotAnalysis`.  `Except.error` renders a throw to the
caller. -/
def takeScreenshotAndAnalyze (env : ScreenshotEnv) : Except String ScanResult :=
  match env.capture with
  | .err msg => .error msg
  | .ok _ =>
    match env.download with
    | .err msg => .error msg
    | .ok _ =>
      match env.api with
      | .ok result =>
        .ok { threats :=
                if result.prediction = 1 then ["Phishing/Scam content detected"]
                else []
              confidence := result.probability
              apiResult := some result
              basicAnalysis := none
              error := none
              screenshotSaved := true }
      | .httpErr _ _ => .ok (performBasicScreenshotAnalysis env)
      | .netErr _ => .ok (performBasicScreenshotAnalysis env)

/-- Response body of `POST /predict-text`. -/
structure TextApiResult where
  prediction : Int
  probability : ℚ
deriving DecidableEq, Repr

/-- The request `scanContent` issues for a given content type before any
network activity: endpoint and payload shape (`jsonBody = true` means a
JSON `Content-Type` body).  `none` when the `switch` hits `default` and
throws before any call is made. -/
def scanContentRequest (type : String) : Option (String × Bool) :=
  if type = "text" then some ("/predict-text", true) else none

/-- `scanContent(content, type)` of `background.js`: only `'text'` is
handled (JSON body to `/predict-text`); every other type throws
`Unsupported content type` from the `switch` default before any call; a
non-success status throws `API Error: <status>`; a network rejection
propagates.  The `catch` merely logs and re-throws. -/
def scanContent (_content : String) (type : String)
    (http : HttpOutcome TextApiResult) : Except String TextApiResult :=
  if type = "text" then
    match http with
    | .ok body => .ok body
    | .httpErr status _ => .error ("API Error: " ++ toString status)
    | .netErr msg => .error msg
  else .error ("Unsupported content type: " ++ type)

end Background

namespace Content

/-- One threat record pushed by the `ContentAnalyzer` detectors of
`content.js` (the `element` back-reference carried by link/form findings
is an identity of the scanned item and is not modelled). -/
structure ThreatFinding where
  type : String
  severity : String
  description : String
  location : String
deriving DecidableEq, Repr

/-- `suspiciousKeywords` of `ContentAnalyzer.analyzeTextThreats` in
`content.js` (sixteen entries; the background vocabulary has eight more). -/
def suspiciousKeywords : List String :=
  ["urgent", "immediate action", "account suspended", "verify now",
   "click here", "limited time", "free money", "lottery winner",
   "bank account", "credit card", "social security", "password",
   "login", "sign in", "update now", "security alert"]

/-- The three `urgencyPatterns` regex families of `analyzeTextThreats`,
each an alternation of literal words matched globally and
case-insensitively. -/
def urgencyPatterns : List (List String) :=
  [["immediate", "urgent", "asap", "right now", "quickly"],
   ["limited time", "expires", "deadline"],
   ["act now", "don\x27t wait", "hurry"]]

/-- Match count of one urgency family in `text`: `text.match(pattern)`
with the `g` and `i` flags, i.e. left-to-right non-overlapping matches of
the lower-cased alternation against the lower-cased text. -/
def urgencyMatchCount (family : List String) (text : String) : Nat :=
  countMatches (family.map String.data) (jsToLower text).data

/-- The `suspicious_keyword` record `analyzeTextThreats` pushes for one
matched vocabulary entry. -/
def keywordFinding (keyword : String) : ThreatFinding :=
  { type := "suspicious_keyword"
    severity := "medium"
    description := "Suspicious keyword detected: \"" ++ keyword ++ "\""
    location := "text_content" }

/-- The `excessive_urgency` record `analyzeTextThreats` pushes for one
urgency family with more than two matches. -/
def urgencyFinding : ThreatFinding :=
  { type := "excessive_urgency"
    severity := "high"
    description := "Excessive urgency detected in text"
    location := "text_content" }

/-- `ContentAnalyzer.analyzeTextThreats(text)`: first one
`suspicious_keyword` finding (severity `medium`) per vocabulary entry the
lower-cased text contains, in vocabulary order; then one
`excessive_urgency` finding (severity `high`) per urgency family with
`matches.length > 2`, in family order, appended to the same array. -/
def analyzeTextThreats (text : String) : List ThreatFinding :=
  let keywordThreats := suspiciousKeywords.foldl
    (fun threats keyword =>
      if jsIncludes (jsToLower text) (jsToLower keyword) then
        threats ++ [keywordFinding keyword]
      else threats)
    []
  urgencyPatterns.foldl
    (fun threats family =>
      if urgencyMatchCount family text > 2 then threats ++ [urgencyFinding]
      else threats)
    keywordThreats

/-- A link record as produced by `extractLinks` / fed to
`analyzeLinkThreats`. -/
structure LinkInfo where
  href : String
  text : String
  title : String
  target : String
deriving DecidableEq, Repr

/-- `ContentAnalyzer.isLinkMismatch(link)`: the visible text names one of
four brands while the destination hostname does not contain that brand.
(`new URL(link.href)` is modelled by `urlHostname`, which handles the
absolute URLs the DOM's `href` property yields.) -/
def isLinkMismatch (link : LinkInfo) : Bool :=
  let domain := urlHostname link.href
  let linkText := jsToLower link.text
  (jsIncludes linkText "google" && !jsIncludes domain "google") ||
    (jsIncludes linkText "facebook" && !jsIncludes domain "facebook") ||
    (jsIncludes linkText "amazon" && !jsIncludes domain "amazon") ||
    (jsIncludes linkText "paypal" && !jsIncludes domain "paypal")

/-- The `suspicious_link` record `analyzeLinkThreats` pushes for one
suspicious href. -/
def suspiciousLinkFinding (href : String) : ThreatFinding :=
  { type := "suspicious_link"
    severity := "high"
    description := "Suspicious link detected: " ++ href
    location := "link" }

/-- The `link_mismatch` record `analyzeLinkThreats` pushes for one
text/destination mismatch. -/
def linkMismatchFinding : ThreatFinding :=
  { type := "link_mismatch"
    severity := "medium"
    description := "Link text does not match destination URL"
    location := "link" }

/-- `ContentAnalyzer.analyzeLinkThreats(links)`: per link, a
`suspicious_link` finding (severity `high`) when the href is suspicious,
then a `link_mismatch` finding (severity `medium`) when text and
destination disagree; both can fire for one link. -/
def analyzeLinkThreats (links : List LinkInfo) : List ThreatFinding :=
  links.foldl
    (fun threats link =>
      let threats :=
        if isSuspiciousURL link.href then
          threats ++ [suspiciousLinkFinding link.href]
        else threats
      if isLinkMismatch link then threats ++ [linkMismatchFinding]
      else threats)
    []

/-- A DOM element node delivered to the mutation observer's callback. -/
structure DomElement where
  tagName : String
  href : String
  textContent : String
  title : String
  target : String
deriving DecidableEq, Repr

/-- A user-visible effect a `ContentAnalyzer` event handler can perform.
`showWarning msg` is the on-page warning banner (emitted by the source's
`showWarning`, which returns without doing anything when the
`notifications` setting is off). -/
inductive PageEffect where
  | showWarning (message : String)
deriving DecidableEq, Repr

/-- `ContentAnalyzer.showWarning(message)`: the banner, suppressed when
notifications are disabled. -/
def showWarning (notifications : Bool) (message : String) : List PageEffect :=
  if notifications then [.showWarning message] else []

/-- The link-detector invocation `analyzeNewContent` performs on a node
inserted after page load: `some findings` when the element is an anchor
(tag `A`) — the detector is re-run on `{href, text, title, target}` of the
new node — and `none` for any other tag (no heuristic re-scan). -/
def analyzeNewContentDetectorRun (el : DomElement) :
    Option (List ThreatFinding) :=
  if el.tagName = "A" then
    some (analyzeLinkThreats
      [{ href := el.href, text := jsTrim el.textContent, title := el.title,
         target := el.target }])
  else none

/-- Observable effects of `ContentAnalyzer.analyzeNewContent(element)`:
the source computes `this.analyzeLinkThreats([...])` for an anchor and
discards the returned array — on no path does it call `showWarning`, send
a message, raise a notification or write storage — so the emitted effect
list is empty for every element. -/
def analyzeNewContent (_el : DomElement) : List PageEffect := []

/-- Outcome of one intercepted DOM event: the effects emitted and whether
the handler invoked `preventDefault` on the event. -/
structure EventResult where
  effects : List PageEffect
  prevented : Bool
deriving DecidableEq, Repr

/-- The five `suspiciousPatterns` of `isSuspiciousFormValue`, each a
case-insensitive regex test; `.*` gaps and the `ssn|…` alternation are
modelled by `testDotStar` / disjunction over the lower-cased string. -/
def formValuePatterns : List (String → Bool) :=
  [fun s => listContains "password".data (jsToLower s).data,
   fun s => testDotStar "credit".data "card".data (jsToLower s).data,
   fun s => listContains "ssn".data (jsToLower s).data ||
     testDotStar "social".data "security".data (jsToLower s).data,
   fun s => testDotStar "bank".data "account".data (jsToLower s).data,
   fun s => testDotStar "routing".data "number".data (jsToLower s).data]

/-- `ContentAnalyzer.isSuspiciousFormValue(key, value)`. -/
def isSuspiciousFormValue (key value : String) : Bool :=
  formValuePatterns.any fun p => p key || p value

/-- `ContentAnalyzer.analyzeFormSubmission(event)` over the submitted
form's `FormData` entries.  The source scans the entries (breaking at the
first suspicious one, which coincides with `List.any`), shows the warning
banner on a match, and never calls `event.preventDefault()` (that call is
commented out). -/
def analyzeFormSubmission (notifications : Bool)
    (entries : List (String × String)) : EventResult :=
  let hasSuspiciousContent := entries.any fun e => isSuspiciousFormValue e.1 e.2
  { effects :=
      if hasSuspiciousContent then
        showWarning notifications "Suspicious form submission detected"
      else []
    prevented := false }

/-- `ContentAnalyzer.analyzeLinkClick(event)`: `closestAnchorHref` is the
href of `event.target.closest('a')` when one exists.  A suspicious href
triggers the warning banner; `event.preventDefault()` is never called
(commented out in the source). -/
def analyzeLinkClick (notifications : Bool)
    (closestAnchorHref : Option String) : EventResult :=
  { effects :=
      match closestAnchorHref with
      | some href =>
        if isSuspiciousURL href then
          showWarning notifications "Suspicious link detected"
        else []
      | none => []
    prevented := false }

/-- The `suspiciousExtensions` list of `analyzeFileUpload`. -/
def suspiciousExtensions : List String :=
  [".exe", ".bat", ".cmd", ".scr", ".pif"]

/-- `'.' + file.name.split('.').pop().toLowerCase()`. -/
def fileExtension (name : String) : String :=
  "." ++ jsToLower ⟨(splitOnDot name.data).getLastD []⟩

/-- `ContentAnalyzer.analyzeFileUpload(event)` over a change event on an
input of the given `type` holding `files`: when the input is a file input
with at least one file, the first file's extension is checked against the
suspicious list and a warning banner is shown on a hit; the handler never
prevents the event. -/
def analyzeFileUpload (notifications : Bool) (inputType : String)
    (files : List String) : EventResult :=
  { effects :=
      match files with
      | [] => []
      | file :: _ =>
        if inputType = "file" then
          if suspiciousExtensions.contains (fileExtension file) then
            showWarning notifications "Suspicious file type detected"
          else []
        else []
    prevented := false }

end Content

namespace Popup

/-- A file selected in the panel: its `name` and MIME `type`. -/
structure FileItem where
  name : String
  mime : String
deriving DecidableEq, Repr

/-- Response body of the media-prediction endpoints as consumed by
`displayFileResults` (`prediction`, `confidence`, optional `is_spoofed`). -/
structure FileApiResult where
  prediction : Int
  confidence : ℚ
  is_spoofed : Option String
deriving DecidableEq, Repr

/-- The request `NexusGuardExtension.scanFile` builds for a MIME type:
the endpoint and the kind-specific `FormData` field name (the file is
appended both under `'file'` and under this field).  MIME types outside
`image/*`, `audio/*`, `video/*` throw `Unsupported file type` before any
call. -/
def scanFileRequest (mime : String) : Except String (String × String) :=
  if strStartsWith mime "image/" then .ok ("/predict-image", "image")
  else if strStartsWith mime "audio/" then .ok ("/predict-audio", "audio")
  else if strStartsWith mime "video/" then .ok ("/predict-video", "video")
  else .error "Unsupported file type"

/-- `NexusGuardExtension.callAPI(endpoint, data)`: a non-success status
throws `API Error: <status> <statusText>`; a network rejection
propagates; a success response yields the parsed body. -/
def callAPI (http : HttpOutcome α) : Except String α :=
  match http with
  | .ok body => .ok body
  | .httpErr status statusText =>
    .error ("API Error: " ++ toString status ++ " " ++ statusText)
  | .netErr msg => .error msg

/-- `NexusGuardExtension.scanFile(file)` under the HTTP outcome `http` of
the one call it issues: build the multipart request for the file's MIME
type (throwing for unsupported types) and run it through `callAPI`. -/
def scanFile (file : FileItem) (http : HttpOutcome FileApiResult) :
    Except String FileApiResult :=
  match scanFileRequest file.mime with
  | .error e => .error e
  | .ok _ => callAPI http

/-- One entry of the `results` array built by `processFiles`: the source
pushes `{file, result}` on success and `{file, error}` on a caught
per-file exception. -/
structure FileScanEntry where
  file : String
  result : Option FileApiResult
  error : Option String
deriving DecidableEq, Repr

/-- `NexusGuardExtension.processFiles(files)` under `env`, the HTTP
outcome of each file's scan: the source iterates the files in order with
a `try`/`catch` around each `scanFile` call, pushing a success or error
entry and continuing with the next file either way — which is exactly a
map over the list. -/
def processFiles (env : FileItem → HttpOutcome FileApiResult)
    (files : List FileItem) : List FileScanEntry :=
  files.map fun file =>
    match scanFile file (env file) with
    | .ok result => { file := file.name, result := some result, error := none }
    | .error e => { file := file.name, result := none, error := some e }

end Popup

/-! ## Helper lemmas

Characterizations of the push-loop detectors as `filter`/`map`
expressions.  These are shared infrastructure for the claim theorems
below. -/

theorem keywordFoldl_eq (find : String → α) (text : String) (l : List String) :
    ∀ acc : List α,
      l.foldl
        (fun threats keyword =>
          if jsIncludes (jsToLower text) (jsToLower keyword) then
            threats ++ [find keyword]
          else threats)
        acc
      = acc
        ++ ((l.filter fun k => jsIncludes (jsToLower text) (jsToLower k)).map
            find) := by
  induction l with
  | nil => intro acc; simp
  | cons x l ih =>
    intro acc
    cases h : jsIncludes (jsToLower text) (jsToLower x) <;>
      simp [List.foldl_cons, h, ih, List.filter_cons]

theorem urgencyFoldl_eq (text : String) (l : List (List String)) :
    ∀ acc : List Content.ThreatFinding,
      l.foldl
        (fun threats family =>
          if Content.urgencyMatchCount family text > 2 then
            threats ++ [Content.urgencyFinding]
          else threats)
        acc
      = acc ++ ((l.filter fun fam => Content.urgencyMatchCount fam text > 2).map
          fun _ => Content.urgencyFinding) := by
  induction l with
  | nil => intro acc; simp
  | cons x l ih =>
    intro acc
    by_cases h : Content.urgencyMatchCount x text > 2 <;>
      simp [List.foldl_cons, h, ih, List.filter_cons]

theorem quickKeywordScan_eq (text : String) :
    Background.quickKeywordScan text
      = Background.suspiciousKeywords.filter fun k =>
          jsIncludes (jsToLower text) (jsToLower k) := by
  have h := keywordFoldl_eq (fun keyword : String => keyword) text
    Background.suspiciousKeywords []
  simpa [Background.quickKeywordScan] using h

theorem analyzeTextThreats_eq (text : String) :
    Content.analyzeTextThreats text
      = ((Content.suspiciousKeywords.filter fun k =>
            jsIncludes (jsToLower text) (jsToLower k)).map Content.keywordFinding)
        ++ ((Content.urgencyPatterns.filter fun fam =>
            Content.urgencyMatchCount fam text > 2).map
              fun _ => Content.urgencyFinding) := by
  simp only [Content.analyzeTextThreats]
  rw [urgencyFoldl_eq text Content.urgencyPatterns,
    keywordFoldl_eq Content.keywordFinding text Content.suspiciousKeywords []]
  simp

/-! ## Claim theorems -/

theorem performBasic_props (env : Background.ScreenshotEnv) :
    (Background.performBasicScreenshotAnalysis env).apiResult = none ∧
      0 ≤ (Background.performBasicScreenshotAnalysis env).confidence ∧
      (Background.performBasicScreenshotAnalysis env).confidence ≤ 1 := by
  unfold Background.performBasicScreenshotAnalysis
  cases henv : env.extract with
  | ok text title url =>
    refine ⟨rfl, ?_, ?_⟩ <;> simp only <;> split <;> norm_num
  | noResult => exact ⟨rfl, by norm_num, by norm_num⟩
  | err msg => exact ⟨rfl, by norm_num, by norm_num⟩

theorem source_dichotomy (r : Background.ScanResult) :
    r.source = .Remote ∨ r.source = .Heuristic := by
  unfold Background.ScanResult.source
  split
  · exact Or.inl rfl
  · exact Or.inr rfl

/-- C1 counterexample: with capture and download succeeding and the remote
call failing with HTTP 503, an execution whose page-text extraction
resolves without content returns a heuristic result of confidence 0.1 —
neither the 0.8 nor the 0.2 the claim allows. -/
theorem screenshot_fallback_confidence_counterexample :
    Background.takeScreenshotAndAnalyze
        { capture := .ok "data:image/png;base64,AAAA", download := .ok 1,
          api := .httpErr 503 "Service Unavailable", extract := .noResult }
      = .ok
          { threats := [], confidence := (0.1 : ℚ), apiResult := none,
            basicAnalysis := some
              { threats := [], text := "", title := "", url := "" },
            error := none, screenshotSaved := true } ∧
      ¬((0.1 : ℚ) = 0.8 ∨ (0.1 : ℚ) = 0.2) :=
  ⟨rfl, by norm_num⟩

/-- C1 (amended): when capture and download succeed, the remote
image-analysis call fails, and page-text extraction returns content, the
operation returns — without raising — the heuristic result whose threats
are `quickKeywordScan(text + ' ' + title)` and whose confidence is exactly
0.8 when at least one finding exists and exactly 0.2 otherwise.  (When
extraction resolves without content the returned heuristic result instead
has confidence 0.1 — see the counterexample.) -/
theorem screenshot_remote_failure_heuristic (env : Background.ScreenshotEnv)
    (dataUrl : String) (did : Nat) (text title url : String)
    (hc : env.capture = .ok dataUrl) (hd : env.download = .ok did)
    (ha : env.api.failed = true) (he : env.extract = .ok text title url) :
    Background.takeScreenshotAndAnalyze env
        = .ok (Background.performBasicScreenshotAnalysis env) ∧
      (Background.performBasicScreenshotAnalysis env).source = .Heuristic ∧
      (Background.performBasicScreenshotAnalysis env).threats
        = Background.quickKeywordScan (text ++ " " ++ title) ∧
      ((Background.quickKeywordScan (text ++ " " ++ title)).length > 0 →
        (Background.performBasicScreenshotAnalysis env).confidence
          = (0.8 : ℚ)) ∧
      ((Background.quickKeywordScan (text ++ " " ++ title)).length = 0 →
        (Background.performBasicScreenshotAnalysis env).confidence
          = (0.2 : ℚ)) := by
  have hb : Background.performBasicScreenshotAnalysis env
      = { threats := Background.quickKeywordScan (text ++ " " ++ title)
          confidence :=
            if (Background.quickKeywordScan (text ++ " " ++ title)).length > 0
            then (0.8 : ℚ) else (0.2 : ℚ)
          apiResult := none
          basicAnalysis := some
            { threats := Background.quickKeywordScan (text ++ " " ++ title)
              text := strTake text 500, title := title, url := url }
          error := none
          screenshotSaved := true } := by
    unfold Background.performBasicScreenshotAnalysis
    rw [he]
  have hmain : Background.takeScreenshotAndAnalyze env
      = .ok (Background.performBasicScreenshotAnalysis env) := by
    unfold Background.takeScreenshotAndAnalyze
    rw [hc, hd]
    cases hapi : env.api with
    | ok res => rw [hapi] at ha; simp [HttpOutcome.failed] at ha
    | httpErr s st => rfl
    | netErr m => rfl
  refine ⟨hmain, ?_, ?_, ?_, ?_⟩
  · rw [hb]; rfl
  · rw [hb]
  · intro hpos
    rw [hb]
    simp only [if_pos hpos]
  · intro hzero
    rw [hb]
    simp [hzero]

/-- C1 amended-theorem witness: a concrete environment where the remote
call drops and the page text contains `urgent`, giving confidence 0.8. -/
theorem screenshot_remote_failure_heuristic_witness :
    Background.takeScreenshotAndAnalyze
        { capture := .ok "data:x", download := .ok 7,
          api := .netErr "Failed to fetch",
          extract := .ok "be urgent please" "my title" "http://e.com" }
      = .ok (Background.performBasicScreenshotAnalysis
          { capture := .ok "data:x", download := .ok 7,
            api := .netErr "Failed to fetch",
            extract := .ok "be urgent please" "my title" "http://e.com" }) ∧
      (Background.performBasicScreenshotAnalysis
          { capture := .ok "data:x", download := .ok 7,
            api := .netErr "Failed to fetch",
            extract := .ok "be urgent please" "my title" "http://e.com" }).confidence
        = (0.8 : ℚ) :=
  ⟨(screenshot_remote_failure_heuristic
      { capture := .ok "data:x", download := .ok 7,
        api := .netErr "Failed to fetch",
        extract := .ok "be urgent please" "my title" "http://e.com" }
      "data:x" 7 "be urgent please" "my title" "http://e.com"
      rfl rfl rfl rfl).1,
    (screenshot_remote_failure_heuristic
      { capture := .ok "data:x", download := .ok 7,
        api := .netErr "Failed to fetch",
        extract := .ok "be urgent please" "my title" "http://e.com" }
      "data:x" 7 "be urgent please" "my title" "http://e.com"
      rfl rfl rfl rfl).2.2.2.1 (by decide)⟩

/-- C2: every result returned by the screenshot pipeline — remote,
heuristic fallback, or extraction-failure fallback — has a source that is
`Remote` or `Heuristic`, a confidence in `[0, 1]` (given that the remote
classifier's probability honours its contract), and carries a remote body
(hence spoof fields) only when the remote call supplied exactly that
body. -/
theorem scanResult_normalized (env : Background.ScreenshotEnv)
    (r : Background.ScanResult)
    (hp : ∀ res, env.api = .ok res →
      0 ≤ res.probability ∧ res.probability ≤ 1)
    (h : Background.takeScreenshotAndAnalyze env = .ok r) :
    (r.source = .Remote ∨ r.source = .Heuristic) ∧
      0 ≤ r.confidence ∧ r.confidence ≤ 1 ∧
      (∀ a, r.apiResult = some a → env.api = .ok a) ∧
      (r.spoofInfo.isSome = true →
        ∃ a, env.api = .ok a ∧ a.is_spoofed.isSome = true) := by
  unfold Background.takeScreenshotAndAnalyze at h
  cases hc : env.capture with
  | err msg => rw [hc] at h; exact absurd h (by simp)
  | ok dataUrl =>
    rw [hc] at h
    cases hd : env.download with
    | err msg => rw [hd] at h; exact absurd h (by simp)
    | ok did =>
      rw [hd] at h
      cases hapi : env.api with
      | ok res =>
        rw [hapi] at h
        have hr := Except.ok.inj h
        obtain ⟨hp0, hp1⟩ := hp res hapi
        refine ⟨source_dichotomy r, ?_, ?_, ?_, ?_⟩
        · rw [← hr]; exact hp0
        · rw [← hr]; exact hp1
        · intro a ha
          rw [← hr] at ha
          simp only [Option.some.injEq] at ha
          rw [← ha]
        · intro hs
          rw [← hr] at hs
          exact ⟨res, rfl, hs⟩
      | httpErr s st =>
        rw [hapi] at h
        have hr := Except.ok.inj h
        obtain ⟨hnone, h0, h1⟩ := performBasic_props env
        refine ⟨source_dichotomy r, ?_, ?_, ?_, ?_⟩
        · rw [← hr]; exact h0
        · rw [← hr]; exact h1
        · intro a ha; rw [← hr, hnone] at ha; cases ha
        · intro hs
          rw [← hr] at hs
          unfold Background.ScanResult.spoofInfo at hs
          rw [hnone] at hs
          cases hs
      | netErr m =>
        rw [hapi] at h
        have hr := Except.ok.inj h
        obtain ⟨hnone, h0, h1⟩ := performBasic_props env
        refine ⟨source_dichotomy r, ?_, ?_, ?_, ?_⟩
        · rw [← hr]; exact h0
        · rw [← hr]; exact h1
        · intro a ha; rw [← hr, hnone] at ha; cases ha
        · intro hs
          rw [← hr] at hs
          unfold Background.ScanResult.spoofInfo at hs
          rw [hnone] at hs
          cases hs

/-- C2 witness: the normalization invariant at a concrete remote success
that supplies spoof fields. -/
theorem scanResult_normalized_witness :
    ((Background.ScanResult.mk ["Phishing/Scam content detected"] (93/100)
        (some { prediction := 1, probability := 93/100,
                is_spoofed := some "spoofed",
                spoof_confidence := some (9/10) })
        none none true).source = .Remote ∨
      (Background.ScanResult.mk ["Phishing/Scam content detected"] (93/100)
        (some { prediction := 1, probability := 93/100,
                is_spoofed := some "spoofed",
                spoof_confidence := some (9/10) })
        none none true).source = .Heuristic) ∧
      0 ≤ ((93 : ℚ)/100) ∧ ((93 : ℚ)/100) ≤ 1 ∧
      (∀ a, (Background.ScanResult.mk ["Phishing/Scam content detected"]
          (93/100)
          (some { prediction := 1, probability := 93/100,
                  is_spoofed := some "spoofed",
                  spoof_confidence := some (9/10) })
          none none true).apiResult = some a →
        Background.ScreenshotEnv.api
          { capture := .ok "data:x", download := .ok 7,
            api := .ok { prediction := 1, probability := 93/100,
                         is_spoofed := some "spoofed",
                         spoof_confidence := some (9/10) },
            extract := .noResult } = .ok a) ∧
      ((Background.ScanResult.mk ["Phishing/Scam content detected"] (93/100)
          (some { prediction := 1, probability := 93/100,
                  is_spoofed := some "spoofed",
                  spoof_confidence := some (9/10) })
          none none true).spoofInfo.isSome = true →
        ∃ a, Background.ScreenshotEnv.api
            { capture := .ok "data:x", download := .ok 7,
              api := .ok { prediction := 1, probability := 93/100,
                           is_spoofed := some "spoofed",
                           spoof_confidence := some (9/10) },
              extract := .noResult } = .ok a ∧
          a.is_spoofed.isSome = true) :=
  scanResult_normalized
    { capture := .ok "data:x", download := .ok 7,
      api := .ok { prediction := 1, probability := 93/100,
                   is_spoofed := some "spoofed",
                   spoof_confidence := some (9/10) },
      extract := .noResult }
    (Background.ScanResult.mk ["Phishing/Scam content detected"] (93/100)
      (some { prediction := 1, probability := 93/100,
              is_spoofed := some "spoofed", spoof_confidence := some (9/10) })
      none none true)
    (fun res hres => by cases hres; exact ⟨by norm_num, by norm_num⟩)
    rfl

/-- C3: when capture and download succeed, the remote call fails, and the
page-text extraction throws, the operation returns — without raising — the
minimal zero-confidence result carrying the extraction error message. -/
theorem screenshot_extraction_failure_zero (env : Background.ScreenshotEnv)
    (dataUrl : String) (did : Nat) (msg : String)
    (hc : env.capture = .ok dataUrl) (hd : env.download = .ok did)
    (ha : env.api.failed = true) (he : env.extract = .err msg) :
    Background.takeScreenshotAndAnalyze env
      = .ok { threats := [], confidence := 0, apiResult := none,
              basicAnalysis := none, error := some msg,
              screenshotSaved := true } := by
  have hb : Background.performBasicScreenshotAnalysis env
      = { threats := [], confidence := 0, apiResult := none,
          basicAnalysis := none, error := some msg,
          screenshotSaved := true } := by
    unfold Background.performBasicScreenshotAnalysis
    rw [he]
    norm_num
  unfold Background.takeScreenshotAndAnalyze
  rw [hc, hd]
  cases hapi : env.api with
  | ok res => rw [hapi] at ha; simp [HttpOutcome.failed] at ha
  | httpErr s st => rw [hb]
  | netErr m => rw [hb]

/-- C3 witness: the zero-confidence error-carrying result at a concrete
environment whose extraction throws. -/
theorem screenshot_extraction_failure_zero_witness :
    Background.takeScreenshotAndAnalyze
        { capture := .ok "data:x", download := .ok 7,
          api := .httpErr 500 "Internal Server Error",
          extract := .err "Cannot access contents of the page" }
      = .ok { threats := [], confidence := 0, apiResult := none,
              basicAnalysis := none,
              error := some "Cannot access contents of the page",
              screenshotSaved := true } :=
  screenshot_extraction_failure_zero _ "data:x" 7
    "Cannot access contents of the page" rfl rfl rfl rfl

/-- C4 counterexample: two environments identical up to the download
outcome.  With the download rejecting, the operation raises the download
error — the remote analysis and the local fallback never run — while with
the download succeeding the very same environment returns the remote
result; so the download step is not best-effort and does change the
returned outcome. -/
theorem download_failure_counterexample :
    Background.takeScreenshotAndAnalyze
        { capture := .ok "data:image/png;base64,AAAA",
          download := .err "Download canceled",
          api := .ok { prediction := 1, probability := 93/100,
                       is_spoofed := none, spoof_confidence := none },
          extract := .ok "all good here" "title" "http://example.com" }
      = .error "Download canceled" ∧
      Background.takeScreenshotAndAnalyze
        { capture := .ok "data:image/png;base64,AAAA",
          download := .ok 1,
          api := .ok { prediction := 1, probability := 93/100,
                       is_spoofed := none, spoof_confidence := none },
          extract := .ok "all good here" "title" "http://example.com" }
      = .ok { threats := ["Phishing/Scam content detected"],
              confidence := 93/100,
              apiResult := some { prediction := 1, probability := 93/100,
                                  is_spoofed := none,
                                  spoof_confidence := none },
              basicAnalysis := none, error := none,
              screenshotSaved := true } :=
  ⟨rfl, rfl⟩

/-- C4 (amended): the download step is not best-effort — whenever capture
succeeds and the download rejects, `takeScreenshotAndAnalyze` raises the
download error to its caller, so neither the remote-analysis attempt nor
the local fallback runs. -/
theorem download_failure_aborts (env : Background.ScreenshotEnv)
    (dataUrl msg : String) (hc : env.capture = .ok dataUrl)
    (hd : env.download = .err msg) :
    Background.takeScreenshotAndAnalyze env = .error msg := by
  unfold Background.takeScreenshotAndAnalyze
  rw [hc, hd]

/-- C4 amended-theorem witness. -/
theorem download_failure_aborts_witness :
    Background.takeScreenshotAndAnalyze
        { capture := .ok "data:x", download := .err "Download canceled",
          api := .netErr "Failed to fetch", extract := .noResult }
      = .error "Download canceled" :=
  download_failure_aborts _ "data:x" "Download canceled" rfl rfl

/-- C6 counterexample: the input `"urgent urgent"` contains exactly two
occurrences of suspicious-vocabulary entries, yet both keyword detectors
yield exactly one finding (occurrences of one entry are collapsed); and
for `"watch bitcoin, urgent!"` — again exactly two occurrences — the
findings come in vocabulary order (`urgent` before `bitcoin`), not in
first-occurrence order (`bitcoin` occurs first in the text). -/
theorem keyword_detector_counterexample :
    totalOccurrences Background.suspiciousKeywords "urgent urgent" = 2 ∧
      Background.quickKeywordScan "urgent urgent" = ["urgent"] ∧
      Content.analyzeTextThreats "urgent urgent"
        = [Content.keywordFinding "urgent"] ∧
      totalOccurrences Background.suspiciousKeywords "watch bitcoin, urgent!"
        = 2 ∧
      Background.quickKeywordScan "watch bitcoin, urgent!"
        = ["urgent", "bitcoin"] ∧
      Background.quickKeywordScan "watch bitcoin, urgent!"
        ≠ ["bitcoin", "urgent"] := by
  refine ⟨by decide, by decide, ?_, by decide, by decide, by decide⟩
  decide

/-- C6 (amended): for every input text the keyword detectors yield exactly
one `SuspiciousKeyword` finding per vocabulary entry contained in the
lower-cased text — repeated occurrences of one entry contribute a single
finding — and the findings are ordered by the fixed vocabulary order, not
by position in the text. -/
theorem keyword_detector_amended (text : String) :
    Background.quickKeywordScan text
        = Background.suspiciousKeywords.filter
            (fun k => jsIncludes (jsToLower text) (jsToLower k)) ∧
      (Background.quickKeywordScan text).Sublist Background.suspiciousKeywords ∧
      Content.analyzeTextThreats text
        = ((Content.suspiciousKeywords.filter fun k =>
              jsIncludes (jsToLower text) (jsToLower k)).map
                Content.keywordFinding)
          ++ ((Content.urgencyPatterns.filter fun fam =>
              Content.urgencyMatchCount fam text > 2).map
                fun _ => Content.urgencyFinding) := by
  refine ⟨quickKeywordScan_eq text, ?_, analyzeTextThreats_eq text⟩
  rw [quickKeywordScan_eq text]
  exact List.filter_sublist _

/-- C7: when exactly one urgency family has three or more matches in the
text, `analyzeTextThreats` emits exactly one `excessive_urgency` finding,
of severity `high`; when every family has at most two matches, it emits
none. -/
theorem urgency_detector (text : String) :
    ((Content.urgencyPatterns.filter fun fam =>
          Content.urgencyMatchCount fam text > 2).length = 1 →
        (Content.analyzeTextThreats text).filter
            (fun t => t.type == "excessive_urgency")
          = [Content.urgencyFinding]) ∧
      ((∀ fam ∈ Content.urgencyPatterns,
          Content.urgencyMatchCount fam text ≤ 2) →
        (Content.analyzeTextThreats text).filter
            (fun t => t.type == "excessive_urgency") = []) ∧
      Content.urgencyFinding.severity = "high" := by
  have hsplit : (Content.analyzeTextThreats text).filter
      (fun t => t.type == "excessive_urgency")
      = (Content.urgencyPatterns.filter fun fam =>
          Content.urgencyMatchCount fam text > 2).map
            fun _ => Content.urgencyFinding := by
    rw [analyzeTextThreats_eq, List.filter_append]
    have h1 : ∀ l : List String,
        (l.map Content.keywordFinding).filter
          (fun t => t.type == "excessive_urgency") = [] := by
      intro l
      induction l with
      | nil => rfl
      | cons x l ih => simp [List.filter_cons, Content.keywordFinding, ih]
    have h2 : ∀ l : List (List String),
        (l.map fun _ => Content.urgencyFinding).filter
            (fun t => t.type == "excessive_urgency")
          = l.map fun _ => Content.urgencyFinding := by
      intro l
      induction l with
      | nil => rfl
      | cons x l ih => simp [List.filter_cons, Content.urgencyFinding, ih]
    rw [h1, h2]
    simp
  refine ⟨?_, ?_, rfl⟩
  · intro hone
    rw [hsplit]
    cases hl : Content.urgencyPatterns.filter fun fam =>
        Content.urgencyMatchCount fam text > 2 with
    | nil => rw [hl] at hone; simp at hone
    | cons a l =>
      rw [hl] at hone
      simp only [List.length_cons, Nat.add_eq_zero, Nat.succ_inj] at hone
      have : l = [] := List.length_eq_zero.mp (by omega)
      subst this
      rfl
  · intro hall
    rw [hsplit]
    have : (Content.urgencyPatterns.filter fun fam =>
        Content.urgencyMatchCount fam text > 2) = [] := by
      rw [List.filter_eq_nil_iff]
      intro fam hfam
      simp only [decide_eq_true_eq, not_lt]
      exact hall fam hfam
    rw [this]
    rfl

/-- C7 witness: `"urgent urgent urgent"` gives the immediacy family three
matches (every other family at most two), and one `excessive_urgency`
finding results; `"urgent urgent"` gives every family at most two matches
and no `excessive_urgency` finding results. -/
theorem urgency_detector_witness :
    ((Content.urgencyPatterns.filter fun fam =>
        Content.urgencyMatchCount fam "urgent urgent urgent" > 2).length = 1 ∧
      (Content.analyzeTextThreats "urgent urgent urgent").filter
          (fun t => t.type == "excessive_urgency")
        = [Content.urgencyFinding]) ∧
      ((∀ fam ∈ Content.urgencyPatterns,
          Content.urgencyMatchCount fam "urgent urgent" ≤ 2) ∧
        (Content.analyzeTextThreats "urgent urgent").filter
            (fun t => t.type == "excessive_urgency") = []) :=
  ⟨⟨by decide, (urgency_detector "urgent urgent urgent").1 (by decide)⟩,
    ⟨by decide, (urgency_detector "urgent urgent").2.1 (by decide)⟩⟩

/-- C5 counterexample: the Coordination Agent's `scanContent` does not map
media kinds at all — for kind `image` it builds no request and raises
`Unsupported content type` even though a healthy HTTP outcome is
available. -/
theorem scanContent_media_counterexample :
    Background.scanContentRequest "image" = none ∧
      Background.scanContent "imgbytes" "image"
          (.ok { prediction := 0, probability := 1/2 })
        = .error "Unsupported content type: image" :=
  ⟨rfl, rfl⟩

/-- C5 (amended): content-kind routing is split across contexts.  The
Agent's `scanContent` handles only the text kind — a JSON body to
`/predict-text`, raising `API Error: <status>` on a non-success status,
propagating network errors, and never turning a failed call into a
success result — and rejects every other kind with `Unsupported content
type` before issuing any call.  The multipart media scans are issued by
the Panel's `scanFile`, which maps `image/*`, `audio/*`, `video/*` MIME
types to `/predict-image`, `/predict-audio`, `/predict-video` and raises
`API Error: <status> <statusText>` on a non-success status, likewise
never substituting a success result for a failed call. -/
theorem scan_routing_amended :
    Background.scanContentRequest "text" = some ("/predict-text", true) ∧
      (∀ type, type ≠ "text" → Background.scanContentRequest type = none) ∧
      (∀ content body,
        Background.scanContent content "text" (.ok body) = .ok body) ∧
      (∀ content status st,
        Background.scanContent content "text" (.httpErr status st)
          = .error ("API Error: " ++ toString status)) ∧
      (∀ content type http, type ≠ "text" →
        Background.scanContent content type http
          = .error ("Unsupported content type: " ++ type)) ∧
      (∀ content type http r, http.failed = true →
        Background.scanContent content type http ≠ .ok r) ∧
      (∀ mime, strStartsWith mime "image/" = true →
        Popup.scanFileRequest mime = .ok ("/predict-image", "image")) ∧
      (∀ mime, strStartsWith mime "image/" = false →
        strStartsWith mime "audio/" = true →
        Popup.scanFileRequest mime = .ok ("/predict-audio", "audio")) ∧
      (∀ mime, strStartsWith mime "image/" = false →
        strStartsWith mime "audio/" = false →
        strStartsWith mime "video/" = true →
        Popup.scanFileRequest mime = .ok ("/predict-video", "video")) ∧
      (∀ file endpoint field status st,
        Popup.scanFileRequest file.mime = .ok (endpoint, field) →
        Popup.scanFile file (.httpErr status st)
          = .error ("API Error: " ++ toString status ++ " " ++ st)) ∧
      (∀ file http r, http.failed = true →
        Popup.scanFile file http ≠ .ok r) := by
  refine ⟨rfl, ?_, ?_, ?_, ?_, ?_, ?_, ?_, ?_, ?_, ?_⟩
  · intro type ht
    unfold Background.scanContentRequest
    rw [if_neg ht]
  · intro content body
    simp [Background.scanContent]
  · intro content status st
    simp [Background.scanContent]
  · intro content type http ht
    unfold Background.scanContent
    rw [if_neg ht]
  · intro content type http r hf
    unfold Background.scanContent
    by_cases ht : type = "text"
    · subst ht
      cases http <;> simp_all [HttpOutcome.failed]
    · rw [if_neg ht]
      simp
  · intro mime hi
    unfold Popup.scanFileRequest
    rw [if_pos hi]
  · intro mime hi ha
    unfold Popup.scanFileRequest
    rw [if_neg (by simp [hi]), if_pos ha]
  · intro mime hi ha hv
    unfold Popup.scanFileRequest
    rw [if_neg (by simp [hi]), if_neg (by simp [ha]), if_pos hv]
  · intro file endpoint field status st hreq
    unfold Popup.scanFile
    rw [hreq]
    rfl
  · intro file http r hf
    unfold Popup.scanFile
    cases hreq : Popup.scanFileRequest file.mime with
    | error e => simp
    | ok p => cases http <;> simp_all [Popup.callAPI, HttpOutcome.failed]

/-- C5 amended-theorem witness: a media kind rejected by the Agent, and
the Panel's audio mapping with its typed service error. -/
theorem scan_routing_amended_witness :
    Background.scanContent "hello" "image" (.netErr "down")
        = .error "Unsupported content type: image" ∧
      Popup.scanFileRequest "audio/mpeg" = .ok ("/predict-audio", "audio") ∧
      Popup.scanFile { name := "a.mp3", mime := "audio/mpeg" }
          (.httpErr 502 "Bad Gateway")
        = .error "API Error: 502 Bad Gateway" := by
  have h := scan_routing_amended
  exact ⟨h.2.2.2.2.1 "hello" "image" (.netErr "down") (by decide),
    h.2.2.2.2.2.2.2.1 "audio/mpeg" (by decide) (by decide),
    h.2.2.2.2.2.2.2.2.2.1 { name := "a.mp3", mime := "audio/mpeg" }
      "/predict-audio" "audio" 502 "Bad Gateway" rfl⟩

/-- C8: batch file scanning records each file's outcome independently:
with three files of which the middle one's scan throws, the results array
has exactly three entries — the middle one carrying the error, the outer
two carrying their results — so one failure never aborts the batch. -/
theorem batch_scan_isolated
    (env : Popup.FileItem → HttpOutcome Popup.FileApiResult)
    (f1 f2 f3 : Popup.FileItem) (r1 r3 : Popup.FileApiResult) (e : String)
    (h1 : Popup.scanFile f1 (env f1) = .ok r1)
    (h2 : Popup.scanFile f2 (env f2) = .error e)
    (h3 : Popup.scanFile f3 (env f3) = .ok r3) :
    Popup.processFiles env [f1, f2, f3]
        = [{ file := f1.name, result := some r1, error := none },
           { file := f2.name, result := none, error := some e },
           { file := f3.name, result := some r3, error := none }] ∧
      (Popup.processFiles env [f1, f2, f3]).length = 3 := by
  constructor
  · simp [Popup.processFiles, h1, h2, h3]
  · simp [Popup.processFiles]

/-- C8 witness: a concrete three-file batch whose middle file gets an
HTTP 500. -/
theorem batch_scan_isolated_witness :
    Popup.processFiles
        (fun f => if f.name = "b.png" then .httpErr 500 "Internal Server Error"
          else .ok { prediction := 0, confidence := 1/2, is_spoofed := none })
        [{ name := "a.png", mime := "image/png" },
         { name := "b.png", mime := "image/png" },
         { name := "c.png", mime := "image/png" }]
      = [{ file := "a.png",
           result := some { prediction := 0, confidence := 1/2,
                            is_spoofed := none },
           error := none },
         { file := "b.png", result := none,
           error := some "API Error: 500 Internal Server Error" },
         { file := "c.png",
           result := some { prediction := 0, confidence := 1/2,
                            is_spoofed := none },
           error := none }] :=
  (batch_scan_isolated
    (fun f => if f.name = "b.png" then .httpErr 500 "Internal Server Error"
      else .ok { prediction := 0, confidence := 1/2, is_spoofed := none })
    { name := "a.png", mime := "image/png" }
    { name := "b.png", mime := "image/png" }
    { name := "c.png", mime := "image/png" }
    { prediction := 0, confidence := 1/2, is_spoofed := none }
    { prediction := 0, confidence := 1/2, is_spoofed := none }
    "API Error: 500 Internal Server Error"
    rfl rfl rfl).1

/-- C9 counterexample: an anchor injected after page load with a
URL-shortener href.  The re-run link detector does yield the
`suspicious_link` finding, but `analyzeNewContent` discards the detector's
return value and emits no user-visible effect — the finding is never
surfaced. -/
theorem injected_anchor_counterexample :
    Content.analyzeNewContentDetectorRun
        { tagName := "A", href := "https://bit.ly/abc", textContent := "abc",
          title := "", target := "" }
      = some [Content.suspiciousLinkFinding "https://bit.ly/abc"] ∧
      Content.analyzeNewContent
        { tagName := "A", href := "https://bit.ly/abc", textContent := "abc",
          title := "", target := "" }
      = [] :=
  ⟨by decide, rfl⟩

/-- C9 (amended): for every DOM node inserted after load, an anchor is
immediately re-run through the link detector on its
`{href, text, title, target}` and a non-anchor triggers no heuristic
re-scan; but the computed findings are discarded — `analyzeNewContent`
emits no warning or other user-visible effect for any insertion, so
injected threats are detected internally yet not surfaced. -/
theorem mutation_observer_amended (el : Content.DomElement) :
    (el.tagName = "A" →
      Content.analyzeNewContentDetectorRun el
        = some (Content.analyzeLinkThreats
            [{ href := el.href, text := jsTrim el.textContent,
               title := el.title, target := el.target }])) ∧
      (el.tagName ≠ "A" →
        Content.analyzeNewContentDetectorRun el = none) ∧
      Content.analyzeNewContent el = [] := by
  refine ⟨?_, ?_, rfl⟩ <;> intro h <;>
    simp [Content.analyzeNewContentDetectorRun, h]

/-- C9 amended-theorem witness: the two branches at a concrete anchor and
a concrete `div`. -/
theorem mutation_observer_amended_witness :
    Content.analyzeNewContentDetectorRun
        { tagName := "A", href := "https://example.com/a",
          textContent := " hi ", title := "", target := "" }
      = some (Content.analyzeLinkThreats
          [{ href := "https://example.com/a", text := jsTrim " hi ",
             title := "", target := "" }]) ∧
      Content.analyzeNewContentDetectorRun
        { tagName := "DIV", href := "", textContent := "urgent urgent",
          title := "", target := "" }
      = none :=
  ⟨(mutation_observer_amended
      { tagName := "A", href := "https://example.com/a",
        textContent := " hi ", title := "", target := "" }).1 rfl,
    (mutation_observer_amended
      { tagName := "DIV", href := "", textContent := "urgent urgent",
        title := "", target := "" }).2.1 (by decide)⟩

/-- C10: live interception is advisory only — none of the three observed
event handlers ever invokes `preventDefault`, and (with notifications
enabled) a heuristic match triggers exactly the on-page warning banner. -/
theorem advisory_interception (notifications : Bool)
    (entries : List (String × String)) (anchorHref : Option String)
    (inputType : String) (files : List String) :
    (Content.analyzeFormSubmission notifications entries).prevented
        = false ∧
      (Content.analyzeLinkClick notifications anchorHref).prevented
        = false ∧
      (Content.analyzeFileUpload notifications inputType files).prevented
        = false ∧
      ((entries.any fun e => Content.isSuspiciousFormValue e.1 e.2) = true →
        (Content.analyzeFormSubmission true entries).effects
          = [.showWarning "Suspicious form submission detected"]) ∧
      (∀ href, isSuspiciousURL href = true →
        (Content.analyzeLinkClick true (some href)).effects
          = [.showWarning "Suspicious link detected"]) ∧
      (∀ file rest,
        Content.suspiciousExtensions.contains (Content.fileExtension file)
            = true →
        (Content.analyzeFileUpload true "file" (file :: rest)).effects
          = [.showWarning "Suspicious file type detected"]) := by
  refine ⟨rfl, rfl, rfl, ?_, ?_, ?_⟩
  · intro h
    simp [Content.analyzeFormSubmission, Content.showWarning, h]
  · intro href h
    simp [Content.analyzeLinkClick, Content.showWarning, h]
  · intro file rest h
    simp [Content.analyzeFileUpload, Content.showWarning]
    exact List.mem_of_elem_eq_true h

/-- C10 witness: a password form field, a shortener link, and an `.exe`
upload each trigger the banner, and no handler prevents its event. -/
theorem advisory_interception_witness :
    (Content.analyzeFormSubmission true [("password", "hunter2")]).prevented
        = false ∧
      (Content.analyzeFormSubmission true [("password", "hunter2")]).effects
        = [.showWarning "Suspicious form submission detected"] ∧
      (Content.analyzeLinkClick true (some "https://bit.ly/abc")).effects
        = [.showWarning "Suspicious link detected"] ∧
      (Content.analyzeFileUpload true "file" ["payload.exe"]).effects
        = [.showWarning "Suspicious file type detected"] :=
  ⟨(advisory_interception true [("password", "hunter2")] none "" []).1,
    (advisory_interception true [("password", "hunter2")] none "" []).2.2.2.1
      (by decide),
    (advisory_interception true [] (some "https://bit.ly/abc") "" []).2.2.2.2.1
      "https://bit.ly/abc" (by decide),
    (advisory_interception true [] none "file" ["payload.exe"]).2.2.2.2.2
      "payload.exe" [] (by decide)⟩

end NexusGuard
